import Mathlib

/-!
# Verification of the city-traffic data generator

Shallow embedding of `data_generator.py` (class `CityTrafficGenerator`).
Every random draw of the Python code (`random.randint`, `random.uniform`,
`random.random`, `random.choice`) becomes an explicit parameter of the
embedded function, together with an admissibility predicate stating the
range the Python RNG guarantees for that draw.  Machine reals produced by
`random.uniform` / `random.random` are modelled as rationals; Python
integers are `Int` (or `Nat` where the source value is provably
non-negative).
-/

namespace CityTraffic

/-- One entry of the hardcoded city table `self.cities` in
`CityTrafficGenerator.__init__`: coordinate ranges, street list and the
traffic-pattern class. -/
structure City where
  lat_lo : ℚ
  lat_hi : ℚ
  lon_lo : ℚ
  lon_hi : ℚ
  streets : List String
  traffic_patterns : String
deriving DecidableEq, Repr

def newYork : City :=
  { lat_lo := 40.6, lat_hi := 40.9, lon_lo := -74.1, lon_hi := -73.8
    streets := ["Broadway", "5th Avenue", "Madison Avenue", "Park Avenue",
      "Lexington Avenue", "Central Park West", "Riverside Drive", "Amsterdam Avenue"]
    traffic_patterns := "urban" }

def losAngeles : City :=
  { lat_lo := 33.9, lat_hi := 34.2, lon_lo := -118.4, lon_hi := -118.1
    streets := ["Sunset Boulevard", "Wilshire Boulevard", "Santa Monica Boulevard",
      "Ventura Boulevard", "Hollywood Boulevard", "Melrose Avenue", "La Cienega Boulevard"]
    traffic_patterns := "suburban" }

def chicago : City :=
  { lat_lo := 41.7, lat_hi := 42.0, lon_lo := -87.8, lon_hi := -87.5
    streets := ["Michigan Avenue", "State Street", "Wabash Avenue", "Lake Shore Drive",
      "Rush Street", "Oak Street", "Division Street"]
    traffic_patterns := "urban" }

def miami : City :=
  { lat_lo := 25.6, lat_hi := 25.9, lon_lo := -80.3, lon_hi := -80.0
    streets := ["Biscayne Boulevard", "Collins Avenue", "Ocean Drive", "Lincoln Road",
      "Alton Road", "Washington Avenue", "Meridian Avenue"]
    traffic_patterns := "coastal" }

def seattle : City :=
  { lat_lo := 47.5, lat_hi := 47.8, lon_lo := -122.5, lon_hi := -122.2
    streets := ["Pike Street", "Pine Street", "Stewart Street", "Denny Way",
      "Capitol Hill", "Queen Anne", "Ballard Avenue"]
    traffic_patterns := "urban" }

def tehran : City :=
  { lat_lo := 35.6, lat_hi := 35.8, lon_lo := 51.3, lon_hi := 51.5
    streets := ["Valiasr Street", "Enghelab Street", "Keshavarz Boulevard", "Tajrish Square",
      "Vanak Square", "Azadi Street", "Ferdowsi Street"]
    traffic_patterns := "urban" }

/-- The city catalog `self.cities` as an association list in the source's
insertion order. -/
def cities : List (String × City) :=
  [("New York", newYork), ("Los Angeles", losAngeles), ("Chicago", chicago),
   ("Miami", miami), ("Seattle", seattle), ("Tehran", tehran)]

/-- The error raised by a catalog lookup miss (`self.cities[city]` on an
unknown key); called `UnknownCityError` in the design taxonomy. -/
structure UnknownCityError where
  name : String
deriving DecidableEq, Repr

/-- Dictionary lookup `self.cities[city]`: the first (unique) entry whose
key equals the requested name, or an `UnknownCityError` if absent. -/
def lookupCity (name : String) : Except UnknownCityError City :=
  match cities.find? (fun p => p.1 == name) with
  | some p => .ok p.2
  | none => .error ⟨name⟩

/-! ## Vehicle-type allocation (lines 158-174 of `generate_traffic_data`)

The Python loop iterates the `self.vehicle_types` dict in insertion order
(car, truck, bus, motorcycle).  For each class, if `remaining <= 0` it
assigns 0 and continues; otherwise it draws a cap `randint(min,max)`,
clamps it to `remaining`, draws the count `randint(0, clamped cap)` and
subtracts it.  After the loop a positive leftover is added to "car".  The
cap draws and count draws are parameters here; `allocAdmissible` states
exactly the ranges the two nested `randint` calls guarantee. -/

/-- The count a class receives in one loop iteration. -/
def allocCount (rem : ℤ) (cnt : ℕ) : ℕ :=
  if rem ≤ 0 then 0 else cnt

/-- The value of `remaining` after one loop iteration. -/
def allocRem (rem : ℤ) (cnt : ℕ) : ℤ :=
  if rem ≤ 0 then rem else rem - cnt

/-- The random draws consumed by the allocation loop: one cap draw
(`randint(limits["min"], limits["max"])`) and one count draw
(`randint(0, max_count)`) per vehicle class, in loop order. -/
structure AllocDraws where
  capCar : ℕ
  capTruck : ℕ
  capBus : ℕ
  capMoto : ℕ
  cntCar : ℕ
  cntTruck : ℕ
  cntBus : ℕ
  cntMoto : ℕ
deriving DecidableEq, Repr

/-- The `vehicle_types` dict of a generated record. -/
structure VehicleTypes where
  car : ℕ
  truck : ℕ
  bus : ℕ
  motorcycle : ℕ
deriving DecidableEq, Repr

/-- The value of `sum(vehicle_types.values())` as an integer. -/
def vehicleTypesSum (v : VehicleTypes) : ℤ :=
  (v.car : ℤ) + v.truck + v.bus + v.motorcycle

/-- The allocation loop of `generate_traffic_data`, unrolled over the four
classes in dict order, followed by the leftover-closing step
`vehicle_types["car"] += remaining` (only when `remaining > 0`). -/
def allocate (vc : ℤ) (d : AllocDraws) : VehicleTypes :=
  let r1 := allocRem vc d.cntCar
  let r2 := allocRem r1 d.cntTruck
  let r3 := allocRem r2 d.cntBus
  let r4 := allocRem r3 d.cntMoto
  { car := allocCount vc d.cntCar + (if 0 < r4 then r4.toNat else 0)
    truck := allocCount r1 d.cntTruck
    bus := allocCount r2 d.cntBus
    motorcycle := allocCount r3 d.cntMoto }

/-- In an iteration reached with `remaining > 0`, the count draw
`randint(0, min(remaining, cap))` lies below both bounds.  (When the
iteration is reached with `remaining <= 0` the Python code draws nothing,
so the parameter is unconstrained and unused.) -/
def cntOK (rem : ℤ) (cap cnt : ℕ) : Prop :=
  0 < rem → (cnt : ℤ) ≤ min rem (cap : ℤ)

instance (rem : ℤ) (cap cnt : ℕ) : Decidable (cntOK rem cap cnt) := by
  unfold cntOK; infer_instance

/-- Ranges guaranteed by the RNG for the allocation draws: each cap draw
within the class's configured `{min, max}` (car [60,85], truck [10,25],
bus [5,15], motorcycle [2,8]) and each count draw within
`[0, min(remaining, cap)]` at its point in the loop. -/
def allocAdmissible (vc : ℤ) (d : AllocDraws) : Prop :=
  (60 ≤ d.capCar ∧ d.capCar ≤ 85) ∧
  (10 ≤ d.capTruck ∧ d.capTruck ≤ 25) ∧
  (5 ≤ d.capBus ∧ d.capBus ≤ 15) ∧
  (2 ≤ d.capMoto ∧ d.capMoto ≤ 8) ∧
  cntOK vc d.capCar d.cntCar ∧
  cntOK (allocRem vc d.cntCar) d.capTruck d.cntTruck ∧
  cntOK (allocRem (allocRem vc d.cntCar) d.cntTruck) d.capBus d.cntBus ∧
  cntOK (allocRem (allocRem (allocRem vc d.cntCar) d.cntTruck) d.cntBus) d.capMoto d.cntMoto

instance (vc : ℤ) (d : AllocDraws) : Decidable (allocAdmissible vc d) := by
  unfold allocAdmissible; infer_instance

/-! ## Hour buckets and pattern-class scaling (lines 117-145) -/

/-- The parameters the `if/elif` chain on `hour` selects: inclusive bounds
for the vehicle-count base draw and the speed base draw, and the
congestion probability. -/
structure BucketSpec where
  vmin : ℕ
  vmax : ℕ
  smin : ℕ
  smax : ℕ
  congestionProb : ℚ
deriving DecidableEq, Repr

/-- The `if hour in [...]` chain of `generate_traffic_data`: rush hours,
business hours, lunch time, and night hours otherwise. -/
def bucketParams (hour : ℕ) : BucketSpec :=
  if hour ∈ [7, 8, 17, 18] then ⟨120, 200, 15, 25, 8/10⟩
  else if hour ∈ [9, 10, 11, 14, 15, 16] then ⟨80, 150, 25, 35, 4/10⟩
  else if hour ∈ [12, 13] then ⟨100, 180, 20, 30, 6/10⟩
  else ⟨20, 80, 35, 50, 1/10⟩

/-- City-type adjustment of the vehicle base, `int(base_vehicles * 1.2)`
for urban and `int(base_vehicles * 0.8)` for suburban, no change
otherwise.  Python's `int()` truncates; on non-negative bases up to the
ranges used here the float products round exactly onto the mathematical
values' floor, so the truncation is the rational floor, i.e. `Nat`
division. -/
def scaleVehicles (pattern : String) (v : ℕ) : ℕ :=
  if pattern = "urban" then v * 12 / 10
  else if pattern = "suburban" then v * 8 / 10
  else v

/-- City-type adjustment of the speed base, `int(base_speed * 0.9)` for
urban and `int(base_speed * 1.1)` for suburban, no change otherwise. -/
def scaleSpeed (pattern : String) (s : ℕ) : ℕ :=
  if pattern = "urban" then s * 9 / 10
  else if pattern = "suburban" then s * 11 / 10
  else s

/-! ## The traffic engine `generate_traffic_data` (lines 113-181) -/

/-- The random draws `generate_traffic_data` consumes, in source order:
the two base `randint`s, the two noise `randint`s, the congestion
`random.random()` draw, the `random.choice` over the two candidate
congestion levels (modelled as a selector for the first element), and the
allocation draws. -/
structure TrafficDraws where
  baseVehicles : ℕ
  baseSpeed : ℕ
  noiseV : ℤ
  noiseS : ℤ
  congR : ℚ
  congChoice : Bool
  alloc : AllocDraws
deriving DecidableEq, Repr

/-- The `traffic_data` object of a record. -/
structure TrafficObservation where
  vehicle_count : ℤ
  average_speed : ℤ
  congestion_level : String
  vehicle_types : VehicleTypes
deriving DecidableEq, Repr

/-- The value `vehicle_count = base_vehicles_scaled + randint(-20, 20)`. -/
def vcOf (city : City) (d : TrafficDraws) : ℤ :=
  (scaleVehicles city.traffic_patterns d.baseVehicles : ℤ) + d.noiseV

/-- The value `average_speed = base_speed_scaled + randint(-5, 5)`. -/
def spOf (city : City) (d : TrafficDraws) : ℤ :=
  (scaleSpeed city.traffic_patterns d.baseSpeed : ℤ) + d.noiseS

/-- The congestion decision (lines 147-156): one uniform draw against the
bucket probability, then a `vehicle_count` tier choosing between two
levels. -/
def congestionOf (prob : ℚ) (vc : ℤ) (r : ℚ) (choice : Bool) : String :=
  if r < prob then
    if vc > 150 then (if choice then "high" else "severe")
    else if vc > 100 then (if choice then "medium" else "high")
    else (if choice then "low" else "medium")
  else "low"

/-- The body of `generate_traffic_data` after the successful catalog
lookup. -/
def generate_traffic_data_city (hour : ℕ) (city : City) (d : TrafficDraws) :
    TrafficObservation :=
  let b := bucketParams hour
  let vc := vcOf city d
  { vehicle_count := vc
    average_speed := spOf city d
    congestion_level := congestionOf b.congestionProb vc d.congR d.congChoice
    vehicle_types := allocate vc d.alloc }

/-- Source `generate_traffic_data(hour, city)`: the dict access
`self.cities[city]` first, then the engine body. -/
def generate_traffic_data (hour : ℕ) (name : String) (d : TrafficDraws) :
    Except UnknownCityError TrafficObservation :=
  match lookupCity name with
  | .error e => .error e
  | .ok city => .ok (generate_traffic_data_city hour city d)

/-- Ranges guaranteed by the RNG for one call of `generate_traffic_data`:
the base draws within the hour bucket's inclusive ranges, the noise draws
within [-20,20] and [-5,5], the congestion draw in [0,1), and the
allocation draws admissible for the computed `vehicle_count`. -/
def trafficAdmissible (hour : ℕ) (city : City) (d : TrafficDraws) : Prop :=
  (bucketParams hour).vmin ≤ d.baseVehicles ∧ d.baseVehicles ≤ (bucketParams hour).vmax ∧
  (bucketParams hour).smin ≤ d.baseSpeed ∧ d.baseSpeed ≤ (bucketParams hour).smax ∧
  -20 ≤ d.noiseV ∧ d.noiseV ≤ 20 ∧
  -5 ≤ d.noiseS ∧ d.noiseS ≤ 5 ∧
  0 ≤ d.congR ∧ d.congR < 1 ∧
  allocAdmissible (vcOf city d) d.alloc

instance (hour : ℕ) (city : City) (d : TrafficDraws) :
    Decidable (trafficAdmissible hour city d) := by
  unfold trafficAdmissible; infer_instance

/-! ## Location sampling `generate_location` (lines 88-111) -/

/-- Python's `round(x, 6)`: round to 6 fractional digits.  (CPython uses
round-half-to-even on floats; away from exact ties this agrees with
round-half-up on the rational model, and every bound proved below holds
for either tie-breaking rule.) -/
def round6 (q : ℚ) : ℚ :=
  (round (q * 1000000) : ℚ) / 1000000

/-- Python's `round(x, 1)` for the weather temperature. -/
def round1 (q : ℚ) : ℚ :=
  (round (q * 10) : ℚ) / 10

/-- The random draws of `generate_location`: the two primary
`random.uniform` coordinate draws, the two ±0.01° micro-jitter draws and
the `random.choice` over the street list (modelled as an index, taken
modulo the list length to match a choice of a valid element). -/
structure LocationDraws where
  lat : ℚ
  lon : ℚ
  jlat : ℚ
  jlon : ℚ
  streetIdx : ℕ
deriving DecidableEq, Repr

/-- The `location` object of a record. -/
structure Location where
  lat : ℚ
  lon : ℚ
  street : String
  city : String
  country : String
deriving DecidableEq, Repr

/-- The body of `generate_location` after the successful catalog lookup:
primary uniform draw, micro-jitter added on top, street choice, country
rule, 6-digit rounding. -/
def generate_location_city (name : String) (city : City) (d : LocationDraws) :
    Location :=
  { lat := round6 (d.lat + d.jlat)
    lon := round6 (d.lon + d.jlon)
    street := city.streets.getD (d.streetIdx % city.streets.length) ""
    city := name
    country := if name = "Tehran" then "Iran" else "USA" }

/-- Source `generate_location(city)`: the dict access `self.cities[city]` first,
then the sampling body. -/
def generate_location (name : String) (d : LocationDraws) :
    Except UnknownCityError Location :=
  match lookupCity name with
  | .error e => .error e
  | .ok city => .ok (generate_location_city name city d)

/-- Ranges guaranteed by the RNG in `generate_location`: the primary draws
within the city's configured ranges and each jitter draw within
[-0.01, 0.01]. -/
def locationAdmissible (city : City) (d : LocationDraws) : Prop :=
  city.lat_lo ≤ d.lat ∧ d.lat ≤ city.lat_hi ∧
  city.lon_lo ≤ d.lon ∧ d.lon ≤ city.lon_hi ∧
  -1/100 ≤ d.jlat ∧ d.jlat ≤ 1/100 ∧
  -1/100 ≤ d.jlon ∧ d.jlon ≤ 1/100

instance (city : City) (d : LocationDraws) :
    Decidable (locationAdmissible city d) := by
  unfold locationAdmissible; infer_instance

/-! ## Weather sampling `generate_weather` (lines 183-200) -/

def weather_conditions : List String :=
  ["clear", "cloudy", "rainy", "foggy", "snowy"]

/-- The random draws of `generate_weather`: the condition choice (index
modulo the list length), the temperature uniform draw, and the humidity
and wind `randint`s. -/
structure WeatherDraws where
  condIdx : ℕ
  temp : ℚ
  humidity : ℕ
  wind : ℕ
deriving DecidableEq, Repr

/-- The `weather` object of a record. -/
structure WeatherObservation where
  temperature : ℚ
  conditions : String
  humidity : ℕ
  wind_speed : ℕ
deriving DecidableEq, Repr

def generate_weather (d : WeatherDraws) : WeatherObservation :=
  { temperature := round1 d.temp
    conditions := weather_conditions.getD (d.condIdx % weather_conditions.length) ""
    humidity := d.humidity
    wind_speed := d.wind }

/-! ## Timestamps

`generate_batch` starts the simulated clock at the fixed
`datetime(2024, 8, 25, 0, 0, 0)` and advances it one minute per record;
`generate_record` stamps `base_time.isoformat() + "Z"`.  Simulated times
are modelled as whole minutes since that run-start instant, and the
proleptic-Gregorian calendar arithmetic of `datetime` is reproduced to
render the ISO-8601 string. -/

/-- Zero-padded 2-digit decimal. -/
def pad2 (n : ℕ) : String :=
  if n < 10 then "0" ++ Nat.repr n else Nat.repr n

/-- Days since the proleptic-Gregorian epoch 0000-03-01 of a civil date
(valid for the dates produced here). -/
def daysFromCivil (y m d : ℕ) : ℕ :=
  let y' := if m ≤ 2 then y - 1 else y
  let era := y' / 400
  let yoe := y' % 400
  let mp := if m > 2 then m - 3 else m + 9
  let doy := (153 * mp + 2) / 5 + d - 1
  let doe := yoe * 365 + yoe / 4 - yoe / 100 + doy
  era * 146097 + doe

/-- Civil date (year, month, day) from days since 0000-03-01, the
standard proleptic-Gregorian conversion that `datetime` arithmetic
implements. -/
def civilFromDays (z : ℕ) : ℕ × ℕ × ℕ :=
  let era := z / 146097
  let doe := z % 146097
  let yoe := (doe - doe / 1460 + doe / 36524 - doe / 146096) / 365
  let doy := doe - (365 * yoe + yoe / 4 - yoe / 100)
  let mp := (5 * doy + 2) / 153
  let d := doy - (153 * mp + 2) / 5 + 1
  let m := if mp < 10 then mp + 3 else mp - 9
  let y := era * 400 + yoe + (if m ≤ 2 then 1 else 0)
  (y, m, d)

/-- The instant `datetime(2024, 8, 25)` measured in days since 0000-03-01. -/
def batchEpochDays : ℕ := daysFromCivil 2024 8 25

/-- The string `(datetime(2024, 8, 25, 0, 0, 0) + timedelta(minutes=t)).isoformat()`. -/
def isoOfMinutes (t : ℕ) : String :=
  let c := civilFromDays (batchEpochDays + t / 1440)
  let hh := t % 1440 / 60
  let mm := t % 60
  Nat.repr c.1 ++ "-" ++ pad2 c.2.1 ++ "-" ++ pad2 c.2.2 ++ "T" ++
    pad2 hh ++ ":" ++ pad2 mm ++ ":" ++ pad2 0

/-- The timestamp string `record_time.isoformat() + "Z"` of the record `t`
simulated minutes after the run start. -/
def isoZ (t : ℕ) : String := isoOfMinutes t ++ "Z"

example : isoZ 0 = "2024-08-25T00:00:00Z" := by rfl

example : isoZ 1503 = "2024-08-26T01:03:00Z" := by rfl

/-! ## Record assembly and batch scheduling (lines 202-259) -/

/-- The `metadata` block; `generated_at` is the wall-clock time at
assembly, an environment input modelled as a draw. -/
structure Metadata where
  source : String
  version : String
  generated_at : String
deriving DecidableEq, Repr

/-- One complete traffic record as assembled by `generate_record`. -/
structure Record where
  timestamp : String
  location : Location
  traffic_data : TrafficObservation
  weather : WeatherObservation
  metadata : Metadata
deriving DecidableEq, Repr

/-- The random draws of one `generate_record` call: the
`random.choice(list(self.cities.keys()))` city selection (an index modulo
the catalog size), the three samplers' draws, and the wall-clock
`generated_at` string. -/
structure RecordDraws where
  cityIdx : ℕ
  loc : LocationDraws
  traffic : TrafficDraws
  weather : WeatherDraws
  generatedAt : String

/-- Source `generate_record(base_time)` for `base_time` = run start + `t`
minutes: derives `hour = base_time.hour`, picks a catalog city, invokes
the three samplers and stamps `base_time.isoformat() + "Z"`.  The city
picked from the key list is always present, so the two dict lookups
inside the samplers succeed; their post-lookup bodies are invoked on the
picked entry. -/
def generate_record (t : ℕ) (d : RecordDraws) : Record :=
  let p := cities.getD (d.cityIdx % cities.length) ("New York", newYork)
  let hour := t / 60 % 24
  { timestamp := isoZ t
    location := generate_location_city p.1 p.2 d.loc
    traffic_data := generate_traffic_data_city hour p.2 d.traffic
    weather := generate_weather d.weather
    metadata := { source := "synthetic_generator", version := "1.0",
                  generated_at := d.generatedAt } }

/-- Source `generate_batch(count)`: record `i` is generated at
`base_time + timedelta(minutes=i)` for `i = 0..count-1`, with
`base_time = datetime(2024, 8, 25, 0, 0, 0)`. -/
def generate_batch (count : ℕ) (ds : ℕ → RecordDraws) : List Record :=
  (List.range count).map (fun i => generate_record i (ds i))

/-! ## Helper lemmas about the allocation loop -/

lemma allocRem_of_nonpos {rem : ℤ} (cnt : ℕ) (h : rem ≤ 0) : allocRem rem cnt = rem := by
  simp [allocRem, h]

lemma allocCount_of_nonpos {rem : ℤ} (cnt : ℕ) (h : rem ≤ 0) : allocCount rem cnt = 0 := by
  simp [allocCount, h]

lemma allocRem_nonneg {rem : ℤ} {cap cnt : ℕ} (h : cntOK rem cap cnt) (h0 : 0 ≤ rem) :
    0 ≤ allocRem rem cnt := by
  unfold allocRem
  split_ifs with hl
  · exact h0
  · have := h (by omega)
    omega

lemma allocRem_le {rem : ℤ} (cnt : ℕ) : allocRem rem cnt ≤ rem := by
  unfold allocRem; split_ifs <;> omega

lemma allocCount_add_allocRem (rem : ℤ) (cnt : ℕ) :
    (allocCount rem cnt : ℤ) + allocRem rem cnt = rem := by
  unfold allocCount allocRem; split_ifs <;> push_cast <;> omega

lemma allocCount_le_cap {rem : ℤ} {cap cnt : ℕ} (h : cntOK rem cap cnt) :
    allocCount rem cnt ≤ cap := by
  unfold allocCount
  split_ifs with hl
  · exact Nat.zero_le _
  · have := h (by omega)
    omega

/-- For negative `vehicle_count` every class receives 0 (no admissibility
needed: every iteration takes the `remaining <= 0` branch and the leftover
step does not fire). -/
lemma allocate_all_zero_of_neg (vc : ℤ) (d : AllocDraws) (hvc : vc < 0) :
    allocate vc d = ⟨0, 0, 0, 0⟩ := by
  have h0 : vc ≤ 0 := le_of_lt hvc
  have h1 : ¬(0 < vc) := not_lt.mpr h0
  simp [allocate, allocRem, allocCount, h0, h1]

/-- Sum behaviour of the allocation: exact for non-negative
`vehicle_count`, constantly zero for negative `vehicle_count`. -/
lemma allocate_sum (vc : ℤ) (d : AllocDraws) (h : allocAdmissible vc d) :
    (0 ≤ vc → vehicleTypesSum (allocate vc d) = vc) ∧
    (vc < 0 → vehicleTypesSum (allocate vc d) = 0) := by
  obtain ⟨-, -, -, -, hc1, hc2, hc3, hc4⟩ := h
  rcases le_or_lt 0 vc with hvc | hvc
  · have n1 : 0 ≤ allocRem vc d.cntCar := allocRem_nonneg hc1 hvc
    have n2 : 0 ≤ allocRem (allocRem vc d.cntCar) d.cntTruck := allocRem_nonneg hc2 n1
    have n3 : 0 ≤ allocRem (allocRem (allocRem vc d.cntCar) d.cntTruck) d.cntBus :=
      allocRem_nonneg hc3 n2
    have n4 : 0 ≤ allocRem (allocRem (allocRem (allocRem vc d.cntCar) d.cntTruck) d.cntBus)
        d.cntMoto := allocRem_nonneg hc4 n3
    have e1 := allocCount_add_allocRem vc d.cntCar
    have e2 := allocCount_add_allocRem (allocRem vc d.cntCar) d.cntTruck
    have e3 := allocCount_add_allocRem
      (allocRem (allocRem vc d.cntCar) d.cntTruck) d.cntBus
    have e4 := allocCount_add_allocRem
      (allocRem (allocRem (allocRem vc d.cntCar) d.cntTruck) d.cntBus) d.cntMoto
    simp only [allocate, vehicleTypesSum]
    split_ifs <;> push_cast <;> omega
  · rw [allocate_all_zero_of_neg vc d hvc]
    refine ⟨fun h => absurd h (by omega), fun _ => by simp [vehicleTypesSum]⟩

/-- With non-negative `vehicle_count`, every class count is bounded by
`vehicle_count`. -/
lemma allocate_counts_le (vc : ℤ) (d : AllocDraws) (h : allocAdmissible vc d)
    (hvc : 0 ≤ vc) :
    ((allocate vc d).car : ℤ) ≤ vc ∧ ((allocate vc d).truck : ℤ) ≤ vc ∧
    ((allocate vc d).bus : ℤ) ≤ vc ∧ ((allocate vc d).motorcycle : ℤ) ≤ vc := by
  have hsum := (allocate_sum vc d h).1 hvc
  unfold vehicleTypesSum at hsum
  omega

/-- The non-car classes never exceed their configured maxima. -/
lemma allocate_noncar_bounds (vc : ℤ) (d : AllocDraws) (h : allocAdmissible vc d) :
    (allocate vc d).truck ≤ 25 ∧ (allocate vc d).bus ≤ 15 ∧
    (allocate vc d).motorcycle ≤ 8 := by
  obtain ⟨-, ht, hb, hm, -, hc2, hc3, hc4⟩ := h
  refine ⟨?_, ?_, ?_⟩
  · have := allocCount_le_cap hc2
    simp only [allocate]
    omega
  · have := allocCount_le_cap hc3
    simp only [allocate]
    omega
  · have := allocCount_le_cap hc4
    simp only [allocate]
    omega

/-! ## Helper lemmas about the traffic engine bounds -/

/-- Every hour bucket's speed base range starts at 15 or above. -/
lemma bucketParams_smin_ge (hour : ℕ) : 15 ≤ (bucketParams hour).smin := by
  unfold bucketParams
  split_ifs <;> norm_num

/-- Any pattern class keeps a speed base of at least 15 above 13
(urban multiplies by 0.9, suburban by 1.1, anything else is identity). -/
lemma scaleSpeed_ge {s : ℕ} (pattern : String) (h : 15 ≤ s) :
    13 ≤ scaleSpeed pattern s := by
  unfold scaleSpeed
  split_ifs <;> omega

/-- The average speed is at least 8 for every admissible draw, whatever
the hour and the city: the smallest speed base is 15 (rush hours), the
harshest scaling is urban (floor of 0.9 · 15 = 13) and the harshest noise
is -5. -/
lemma spOf_ge_eight (hour : ℕ) (city : City) (d : TrafficDraws)
    (h : trafficAdmissible hour city d) : 8 ≤ spOf city d := by
  obtain ⟨-, -, hs1, -, -, -, hn1, -, -, -, -⟩ := h
  have hbs : 15 ≤ d.baseSpeed := le_trans (bucketParams_smin_ge hour) hs1
  have hsc := scaleSpeed_ge city.traffic_patterns hbs
  unfold spOf
  omega

/-! ## Helper lemmas about rounding and street choice -/

/-- Rounding with `round6` moves a rational by at most half of the last kept digit. -/
lemma abs_round6_sub_le (q : ℚ) : |round6 q - q| ≤ 1 / 2000000 := by
  have h : |(round (q * 1000000) : ℚ) - q * 1000000| ≤ 1 / 2 := by
    rw [abs_sub_comm]
    exact abs_sub_round _
  have e : round6 q - q = ((round (q * 1000000) : ℚ) - q * 1000000) / 1000000 := by
    unfold round6
    ring
  rw [e, abs_div, abs_of_pos (show (0 : ℚ) < 1000000 by norm_num)]
  linarith

/-- An element picked by index modulo the length of a non-empty list is a
member of the list. -/
lemma getD_mod_mem {l : List String} (i : ℕ) (d : String) (h : l ≠ []) :
    l.getD (i % l.length) d ∈ l := by
  have hlen : 0 < l.length := List.length_pos.mpr h
  have hlt : i % l.length < l.length := Nat.mod_lt _ hlen
  rw [List.getD_eq_getElem?_getD, List.getElem?_eq_getElem hlt]
  exact List.getElem_mem _

/-! ## Helper lemma for the pattern-class scaling as a rational floor -/

/-- Division of naturals by 10 computes the floor of the exact rational
product. -/
lemma cast_mul_div10 (v a : ℕ) :
    ((v * a / 10 : ℕ) : ℤ) = ⌊(v : ℚ) * ((a : ℚ) / 10)⌋ := by
  have h : (v : ℚ) * ((a : ℚ) / 10) = ((v * a : ℕ) : ℚ) / ((10 : ℕ) : ℚ) := by
    push_cast
    ring
  rw [h, Rat.floor_natCast_div_natCast]
  push_cast
  rfl

/-- Bounds on the 6-digit rounding of a value lying in an interval. -/
lemma round6_range (q lo hi : ℚ) (h1 : lo ≤ q) (h2 : q ≤ hi) :
    lo - 1 / 2000000 ≤ round6 q ∧ round6 q ≤ hi + 1 / 2000000 := by
  have h := abs_round6_sub_le q
  rw [abs_le] at h
  constructor <;> linarith [h.1, h.2]

/-- Every catalog city has a non-empty street list. -/
lemma cities_streets_ne_nil : ∀ p ∈ cities, p.2.streets ≠ [] := by
  intro p hp
  fin_cases hp <;>
    simp [newYork, losAngeles, chicago, miami, seattle, tehran]

/-! ## Claims -/

/-- C1 (counterexample).  The sum invariant fails when the noise draw
makes `vehicle_count` negative: at hour 2 (night bucket) in Los Angeles
(suburban), base 20 scales to 16 and noise -20 yields `vehicle_count =
-4`, an admissible outcome, yet the allocation assigns 0 to every class,
so the `vehicle_types` sum is 0 ≠ -4. -/
theorem C1_counterexample :
    lookupCity "Los Angeles" = .ok losAngeles ∧
    trafficAdmissible 2 losAngeles ⟨20, 35, -20, 0, 0, true, ⟨60, 10, 5, 2, 0, 0, 0, 0⟩⟩ ∧
    (generate_traffic_data_city 2 losAngeles
      ⟨20, 35, -20, 0, 0, true, ⟨60, 10, 5, 2, 0, 0, 0, 0⟩⟩).vehicle_count = -4 ∧
    vehicleTypesSum (generate_traffic_data_city 2 losAngeles
      ⟨20, 35, -20, 0, 0, true, ⟨60, 10, 5, 2, 0, 0, 0, 0⟩⟩).vehicle_types ≠
      (generate_traffic_data_city 2 losAngeles
        ⟨20, 35, -20, 0, 0, true, ⟨60, 10, 5, 2, 0, 0, 0, 0⟩⟩).vehicle_count :=
  ⟨by rfl, by decide, by decide, by decide⟩

/-- C1 (amended).  For every observation produced by the traffic
engine with admissible draws, the sum of the four `vehicle_types` values
equals `vehicle_count` exactly whenever `vehicle_count` is non-negative
(zero included); when noise makes `vehicle_count` negative the four
counts are all 0, so the sum is 0, not `vehicle_count`. -/
theorem C1_sum_invariant (hour : ℕ) (city : City) (d : TrafficDraws)
    (h : trafficAdmissible hour city d) :
    (0 ≤ (generate_traffic_data_city hour city d).vehicle_count →
      vehicleTypesSum (generate_traffic_data_city hour city d).vehicle_types =
        (generate_traffic_data_city hour city d).vehicle_count) ∧
    ((generate_traffic_data_city hour city d).vehicle_count < 0 →
      vehicleTypesSum (generate_traffic_data_city hour city d).vehicle_types = 0) := by
  obtain ⟨-, -, -, -, -, -, -, -, -, -, ha⟩ := h
  simpa [generate_traffic_data_city] using allocate_sum (vcOf city d) d.alloc ha

/-- C1 witness: a concrete admissible run at hour 0 in New York where
the sum invariant holds with value 60. -/
theorem C1_sum_invariant_witness :
    vehicleTypesSum (generate_traffic_data_city 0 newYork
      ⟨50, 40, 0, 0, 0, true, ⟨60, 10, 5, 2, 10, 5, 3, 1⟩⟩).vehicle_types =
    (generate_traffic_data_city 0 newYork
      ⟨50, 40, 0, 0, 0, true, ⟨60, 10, 5, 2, 10, 5, 3, 1⟩⟩).vehicle_count :=
  (C1_sum_invariant 0 newYork ⟨50, 40, 0, 0, 0, true, ⟨60, 10, 5, 2, 10, 5, 3, 1⟩⟩
    (by decide)).1 (by decide)

/-- C2 (counterexample).  For a negative `vehicle_count` (admissible,
see `C1_counterexample`) every allocated count is 0, which is not
`≤ vehicle_count`: the motorcycle count 0 exceeds `vehicle_count = -4`. -/
theorem C2_counterexample :
    trafficAdmissible 2 losAngeles ⟨20, 35, -20, 1, 0, true, ⟨60, 10, 5, 2, 0, 0, 0, 0⟩⟩ ∧
    ¬(((generate_traffic_data_city 2 losAngeles
        ⟨20, 35, -20, 1, 0, true, ⟨60, 10, 5, 2, 0, 0, 0, 0⟩⟩).vehicle_types.motorcycle : ℤ) ≤
      (generate_traffic_data_city 2 losAngeles
        ⟨20, 35, -20, 1, 0, true, ⟨60, 10, 5, 2, 0, 0, 0, 0⟩⟩).vehicle_count) :=
  ⟨by decide, by decide⟩

/-- C2 (amended).  Every allocated class count is non-negative, and
whenever `vehicle_count` is non-negative each class count is at most
`vehicle_count`; when `vehicle_count` is negative the counts (all 0)
necessarily exceed it. -/
theorem C2_class_bounds (hour : ℕ) (city : City) (d : TrafficDraws)
    (h : trafficAdmissible hour city d) :
    (0 ≤ ((generate_traffic_data_city hour city d).vehicle_types.car : ℤ) ∧
     0 ≤ ((generate_traffic_data_city hour city d).vehicle_types.truck : ℤ) ∧
     0 ≤ ((generate_traffic_data_city hour city d).vehicle_types.bus : ℤ) ∧
     0 ≤ ((generate_traffic_data_city hour city d).vehicle_types.motorcycle : ℤ)) ∧
    (0 ≤ (generate_traffic_data_city hour city d).vehicle_count →
      ((generate_traffic_data_city hour city d).vehicle_types.car : ℤ) ≤
        (generate_traffic_data_city hour city d).vehicle_count ∧
      ((generate_traffic_data_city hour city d).vehicle_types.truck : ℤ) ≤
        (generate_traffic_data_city hour city d).vehicle_count ∧
      ((generate_traffic_data_city hour city d).vehicle_types.bus : ℤ) ≤
        (generate_traffic_data_city hour city d).vehicle_count ∧
      ((generate_traffic_data_city hour city d).vehicle_types.motorcycle : ℤ) ≤
        (generate_traffic_data_city hour city d).vehicle_count) := by
  obtain ⟨-, -, -, -, -, -, -, -, -, -, ha⟩ := h
  constructor
  · refine ⟨?_, ?_, ?_, ?_⟩ <;> positivity
  · intro h0
    have h0' : 0 ≤ vcOf city d := by
      simpa [generate_traffic_data_city] using h0
    simpa [generate_traffic_data_city] using
      allocate_counts_le (vcOf city d) d.alloc ha h0'

/-- C2 witness: the bounds at a concrete admissible input with
non-negative `vehicle_count`. -/
theorem C2_class_bounds_witness :
    ((generate_traffic_data_city 0 newYork
      ⟨50, 40, 0, 1, 0, true, ⟨60, 10, 5, 2, 10, 5, 3, 1⟩⟩).vehicle_types.car : ℤ) ≤
    (generate_traffic_data_city 0 newYork
      ⟨50, 40, 0, 1, 0, true, ⟨60, 10, 5, 2, 10, 5, 3, 1⟩⟩).vehicle_count :=
  ((C2_class_bounds 0 newYork ⟨50, 40, 0, 1, 0, true, ⟨60, 10, 5, 2, 10, 5, 3, 1⟩⟩
    (by decide)).2 (by decide)).1

/-- C3 (counterexample).  The second half of the claim is false: no
admissible hour/pattern/draw combination can make `average_speed`
negative, because the smallest speed base is 15 (rush bucket), the
harshest scaling is urban (`int(15 * 0.9) = 13`) and the harshest noise
is -5, so `average_speed ≥ 8` always. -/
theorem C3_counterexample :
    ¬ ∃ (hour : ℕ) (city : City) (d : TrafficDraws),
        trafficAdmissible hour city d ∧
        (generate_traffic_data_city hour city d).average_speed < 0 := by
  rintro ⟨hour, city, d, h, hneg⟩
  have h8 := spOf_ge_eight hour city d h
  simp only [generate_traffic_data_city] at hneg
  omega

/-- C3 (amended).  The engine indeed does not clamp: for some night
hour, pattern class and admissible draws the returned `vehicle_count` is
strictly negative (suburban night base 20 scaled to 16 minus noise 20
gives -4); but `average_speed` can never go negative — it is at least 8
for every admissible hour/class/draw combination. -/
theorem C3_no_clamp_vehicle_count_only :
    (trafficAdmissible 2 losAngeles ⟨20, 35, -20, -1, 0, true, ⟨60, 10, 5, 2, 0, 0, 0, 0⟩⟩ ∧
      (generate_traffic_data_city 2 losAngeles
        ⟨20, 35, -20, -1, 0, true, ⟨60, 10, 5, 2, 0, 0, 0, 0⟩⟩).vehicle_count < 0) ∧
    (∀ (hour : ℕ) (city : City) (d : TrafficDraws), trafficAdmissible hour city d →
      8 ≤ (generate_traffic_data_city hour city d).average_speed) := by
  refine ⟨⟨by decide, by decide⟩, fun hour city d h => ?_⟩
  have h8 := spOf_ge_eight hour city d h
  simp only [generate_traffic_data_city]
  omega

/-- C3 witness: the universal speed bound applied at a concrete
admissible input. -/
theorem C3_no_clamp_witness :
    8 ≤ (generate_traffic_data_city 7 newYork
      ⟨120, 15, 0, -5, 0, true, ⟨60, 10, 5, 2, 0, 0, 0, 0⟩⟩).average_speed :=
  C3_no_clamp_vehicle_count_only.2 7 newYork
    ⟨120, 15, 0, -5, 0, true, ⟨60, 10, 5, 2, 0, 0, 0, 0⟩⟩ (by decide)

/-- C4.  One uniform draw in [0,1) decides congestion: if it is below
the hour bucket's probability the level is picked between {high, severe}
when `vehicle_count > 150`, between {medium, high} when
`vehicle_count > 100`, and between {low, medium} otherwise (the
independent choice draw selecting the first or the second candidate); if
the draw is not below the probability the level is "low" regardless of
`vehicle_count`. -/
theorem C4_congestion_decision (hour : ℕ) (city : City) (d : TrafficDraws) :
    (d.congR < (bucketParams hour).congestionProb →
      ((generate_traffic_data_city hour city d).vehicle_count > 150 →
        (generate_traffic_data_city hour city d).congestion_level =
          (if d.congChoice then "high" else "severe")) ∧
      ((generate_traffic_data_city hour city d).vehicle_count ≤ 150 →
        (generate_traffic_data_city hour city d).vehicle_count > 100 →
        (generate_traffic_data_city hour city d).congestion_level =
          (if d.congChoice then "medium" else "high")) ∧
      ((generate_traffic_data_city hour city d).vehicle_count ≤ 100 →
        (generate_traffic_data_city hour city d).congestion_level =
          (if d.congChoice then "low" else "medium"))) ∧
    (¬ d.congR < (bucketParams hour).congestionProb →
      (generate_traffic_data_city hour city d).congestion_level = "low") := by
  simp only [generate_traffic_data_city]
  unfold congestionOf
  split_ifs <;>
    refine ⟨fun hr => ⟨fun ha => ?_, fun ha hb => ?_, fun ha => ?_⟩, fun hn => ?_⟩ <;>
    first
      | rfl
      | omega
      | tauto

/-- C4 witness: rush hour with an accepted congestion draw and
`vehicle_count = 240 > 150` yields the first of {high, severe}. -/
theorem C4_congestion_witness :
    (generate_traffic_data_city 7 newYork
      ⟨200, 15, 0, 0, 0, true, ⟨60, 10, 5, 2, 0, 0, 0, 0⟩⟩).congestion_level = "high" :=
  ((C4_congestion_decision 7 newYork
      ⟨200, 15, 0, 0, 0, true, ⟨60, 10, 5, 2, 0, 0, 0, 0⟩⟩).1
    (by unfold bucketParams; norm_num)).1 (by decide)

/-- C5.  The four hour buckets are selected by explicit membership,
are mutually exclusive, and carry exactly the ranges and congestion
probabilities of the source table; for admissible draws the two base
samples (which are independent parameters of the model) lie in the
bucket's inclusive ranges. -/
theorem C5_hour_buckets (hour : ℕ) :
    (hour ∈ [7, 8, 17, 18] → bucketParams hour = ⟨120, 200, 15, 25, 8/10⟩) ∧
    (hour ∈ [9, 10, 11, 14, 15, 16] → bucketParams hour = ⟨80, 150, 25, 35, 4/10⟩) ∧
    (hour ∈ [12, 13] → bucketParams hour = ⟨100, 180, 20, 30, 6/10⟩) ∧
    (hour ∉ [7, 8, 17, 18] → hour ∉ [9, 10, 11, 14, 15, 16] → hour ∉ [12, 13] →
      bucketParams hour = ⟨20, 80, 35, 50, 1/10⟩) ∧
    ¬(hour ∈ [7, 8, 17, 18] ∧ hour ∈ [9, 10, 11, 14, 15, 16]) ∧
    ¬(hour ∈ [7, 8, 17, 18] ∧ hour ∈ [12, 13]) ∧
    ¬(hour ∈ [9, 10, 11, 14, 15, 16] ∧ hour ∈ [12, 13]) ∧
    (∀ (city : City) (d : TrafficDraws), trafficAdmissible hour city d →
      (bucketParams hour).vmin ≤ d.baseVehicles ∧
      d.baseVehicles ≤ (bucketParams hour).vmax ∧
      (bucketParams hour).smin ≤ d.baseSpeed ∧
      d.baseSpeed ≤ (bucketParams hour).smax) := by
  refine ⟨fun h => ?_, fun h => ?_, fun h => ?_, fun h1 h2 h3 => ?_, ?_, ?_, ?_,
    fun city d hd => ⟨hd.1, hd.2.1, hd.2.2.1, hd.2.2.2.1⟩⟩
  · unfold bucketParams
    rw [if_pos h]
  · have h1 : hour ∉ [7, 8, 17, 18] := by fin_cases h <;> decide
    unfold bucketParams
    rw [if_neg h1, if_pos h]
  · have h1 : hour ∉ [7, 8, 17, 18] := by fin_cases h <;> decide
    have h2 : hour ∉ [9, 10, 11, 14, 15, 16] := by fin_cases h <;> decide
    unfold bucketParams
    rw [if_neg h1, if_neg h2, if_pos h]
  · unfold bucketParams
    rw [if_neg h1, if_neg h2, if_neg h3]
  · rintro ⟨ha, hb⟩
    fin_cases ha <;> exact absurd hb (by decide)
  · rintro ⟨ha, hb⟩
    fin_cases ha <;> exact absurd hb (by decide)
  · rintro ⟨ha, hb⟩
    fin_cases ha <;> exact absurd hb (by decide)

/-- C5 witness: hour 7 is a rush hour with the rush parameters. -/
theorem C5_hour_buckets_witness :
    bucketParams 7 = ⟨120, 200, 15, 25, 8/10⟩ :=
  (C5_hour_buckets 7).1 (by decide)

/-- C6.  Pattern-class scaling multiplies the two bases and truncates
(floor on these non-negative values), without rounding: urban scales the
vehicle base by 1.2 and the speed base by 0.9, suburban by 0.8 and 1.1,
and every other pattern class — "coastal" or unrecognized — leaves both
bases unchanged without erroring. -/
theorem C6_pattern_scaling (v s : ℕ) :
    ((scaleVehicles "urban" v : ℤ) = ⌊(v : ℚ) * 1.2⌋) ∧
    ((scaleSpeed "urban" s : ℤ) = ⌊(s : ℚ) * 0.9⌋) ∧
    ((scaleVehicles "suburban" v : ℤ) = ⌊(v : ℚ) * 0.8⌋) ∧
    ((scaleSpeed "suburban" s : ℤ) = ⌊(s : ℚ) * 1.1⌋) ∧
    (∀ p : String, p ≠ "urban" → p ≠ "suburban" →
      scaleVehicles p v = v ∧ scaleSpeed p s = s) := by
  refine ⟨?_, ?_, ?_, ?_, fun p h1 h2 => ?_⟩
  · rw [show scaleVehicles "urban" v = v * 12 / 10 from by simp [scaleVehicles]]
    rw [cast_mul_div10]
    norm_num
  · rw [show scaleSpeed "urban" s = s * 9 / 10 from by simp [scaleSpeed]]
    rw [cast_mul_div10]
    norm_num
  · rw [show scaleVehicles "suburban" v = v * 8 / 10 from by simp [scaleVehicles]]
    rw [cast_mul_div10]
    norm_num
  · rw [show scaleSpeed "suburban" s = s * 11 / 10 from by simp [scaleSpeed]]
    rw [cast_mul_div10]
    norm_num
  · simp [scaleVehicles, scaleSpeed, h1, h2]

/-- C6 witness: the unrecognized-class branch at the coastal pattern
leaves the bases 25 and 15 unchanged. -/
theorem C6_pattern_scaling_witness :
    scaleVehicles "coastal" 25 = 25 ∧ scaleSpeed "coastal" 15 = 15 :=
  (C6_pattern_scaling 25 15).2.2.2.2 "coastal" (by decide) (by decide)

/-- C7.  For every city in the catalog and admissible draws — primary
uniform draw within the configured range, ±0.01° micro-jitter applied
after it — the rounded latitude lies within the city's latitude range
± 0.011° and the rounded longitude within the longitude range ± 0.011°,
and the street is an element of the city's street list. -/
theorem C7_location_invariant :
    ∀ p ∈ cities, ∀ d : LocationDraws, locationAdmissible p.2 d →
      p.2.lat_lo - 11/1000 ≤ (generate_location_city p.1 p.2 d).lat ∧
      (generate_location_city p.1 p.2 d).lat ≤ p.2.lat_hi + 11/1000 ∧
      p.2.lon_lo - 11/1000 ≤ (generate_location_city p.1 p.2 d).lon ∧
      (generate_location_city p.1 p.2 d).lon ≤ p.2.lon_hi + 11/1000 ∧
      (generate_location_city p.1 p.2 d).street ∈ p.2.streets := by
  intro p hp d hd
  obtain ⟨h1, h2, h3, h4, h5, h6, h7, h8⟩ := hd
  have hlat := round6_range (d.lat + d.jlat)
    (p.2.lat_lo - 1/100) (p.2.lat_hi + 1/100) (by linarith) (by linarith)
  have hlon := round6_range (d.lon + d.jlon)
    (p.2.lon_lo - 1/100) (p.2.lon_hi + 1/100) (by linarith) (by linarith)
  refine ⟨?_, ?_, ?_, ?_, ?_⟩
  · simp only [generate_location_city]
    linarith [hlat.1]
  · simp only [generate_location_city]
    linarith [hlat.2]
  · simp only [generate_location_city]
    linarith [hlon.1]
  · simp only [generate_location_city]
    linarith [hlon.2]
  · simp only [generate_location_city]
    exact getD_mod_mem _ _ (cities_streets_ne_nil p hp)

/-- C7 witness: concrete admissible draws for New York stay inside
the tolerance band and pick a catalog street. -/
theorem C7_location_witness :
    newYork.lat_lo - 11/1000 ≤
      (generate_location_city "New York" newYork ⟨40.7, -74.0, 0, 0, 2⟩).lat ∧
    (generate_location_city "New York" newYork ⟨40.7, -74.0, 0, 0, 2⟩).street ∈
      newYork.streets := by
  have h := C7_location_invariant ("New York", newYork) (by simp [cities])
    ⟨40.7, -74.0, 0, 0, 2⟩ (by norm_num [locationAdmissible, newYork])
  exact ⟨h.1, h.2.2.2.2⟩

/-- C8.  Batch mode with count `N` (run start fixed at
2024-08-25T00:00:00) produces exactly `N` records, and record `i` carries
the ISO-8601 rendering of run-start + `i` simulated minutes with a
literal trailing "Z"; successive simulated timestamps are therefore
exactly one minute apart, in ascending order. -/
theorem C8_batch_timeline (N : ℕ) (ds : ℕ → RecordDraws) :
    (generate_batch N ds).length = N ∧
    ∀ i (h : i < (generate_batch N ds).length),
      (generate_batch N ds)[i].timestamp = isoOfMinutes i ++ "Z" := by
  constructor
  · simp [generate_batch]
  · intro i h
    simp [generate_batch, generate_record, isoZ]

/-- C8 witness: a batch of 5 has length 5 and its fourth record is
stamped three simulated minutes after the run start. -/
theorem C8_batch_witness :
    (generate_batch 5 (fun _ => ⟨0, ⟨40.7, -74.0, 0, 0, 0⟩,
        ⟨50, 40, 0, 0, 0, true, ⟨60, 10, 5, 2, 0, 0, 0, 0⟩⟩,
        ⟨0, 20, 50, 10⟩, "2025-01-01T00:00:00"⟩)).length = 5 ∧
    ((generate_batch 5 (fun _ => ⟨0, ⟨40.7, -74.0, 0, 0, 0⟩,
        ⟨50, 40, 0, 0, 0, true, ⟨60, 10, 5, 2, 0, 0, 0, 0⟩⟩,
        ⟨0, 20, 50, 10⟩, "2025-01-01T00:00:00"⟩)).get
      ⟨3, by simp [generate_batch]⟩).timestamp = "2024-08-25T00:03:00Z" := by
  refine ⟨(C8_batch_timeline 5 _).1, ?_⟩
  exact ((C8_batch_timeline 5 _).2 3 (by simp [generate_batch])).trans (by rfl)

/-- C9.  Looking up a name absent from the catalog fails with
`UnknownCityError` — both `generate_location` and `generate_traffic_data`
fail on the record being built — and for every catalog city name the
lookup succeeds and both samplers return a value. -/
theorem C9_unknown_city (name : String) :
    (name ∉ cities.map Prod.fst →
      lookupCity name = .error ⟨name⟩ ∧
      (∀ d, generate_location name d = .error ⟨name⟩) ∧
      (∀ hour td, generate_traffic_data hour name td = .error ⟨name⟩)) ∧
    (name ∈ cities.map Prod.fst →
      ∃ city, lookupCity name = .ok city ∧
        (∀ d, generate_location name d = .ok (generate_location_city name city d)) ∧
        (∀ hour td, generate_traffic_data hour name td =
          .ok (generate_traffic_data_city hour city td))) := by
  constructor
  · intro hmem
    have hf : cities.find? (fun p => p.1 == name) = none := by
      rw [List.find?_eq_none]
      intro p hp
      simp only [beq_iff_eq]
      intro heq
      exact hmem (heq ▸ List.mem_map_of_mem Prod.fst hp)
    have hl : lookupCity name = .error ⟨name⟩ := by
      unfold lookupCity
      rw [hf]
    refine ⟨hl, fun d => ?_, fun hour td => ?_⟩
    · unfold generate_location
      rw [hl]
    · unfold generate_traffic_data
      rw [hl]
  · intro hmem
    obtain ⟨p, hp, hpe⟩ := List.mem_map.mp hmem
    have hsome : (cities.find? (fun q => q.1 == name)).isSome := by
      rw [List.find?_isSome]
      exact ⟨p, hp, by simp [hpe]⟩
    obtain ⟨q, hq⟩ := Option.isSome_iff_exists.mp hsome
    have hok : lookupCity name = .ok q.2 := by
      unfold lookupCity
      rw [hq]
    refine ⟨q.2, hok, fun d => ?_, fun hour td => ?_⟩
    · unfold generate_location
      rw [hok]
    · unfold generate_traffic_data
      rw [hok]

/-- C9 witness: the unknown name "Atlantis" fails with
`UnknownCityError`. -/
theorem C9_unknown_city_witness :
    lookupCity "Atlantis" = .error ⟨"Atlantis"⟩ :=
  (((C9_unknown_city "Atlantis").1 (by decide)).1)

/-- C10.  For all admissible draws the non-car classes never exceed
their configured maxima (truck ≤ 25, bus ≤ 15, motorcycle ≤ 8), while the
car count can exceed its configured maximum of 85 through the
leftover-closing step. -/
theorem C10_class_maxima :
    (∀ (hour : ℕ) (city : City) (d : TrafficDraws), trafficAdmissible hour city d →
      (generate_traffic_data_city hour city d).vehicle_types.truck ≤ 25 ∧
      (generate_traffic_data_city hour city d).vehicle_types.bus ≤ 15 ∧
      (generate_traffic_data_city hour city d).vehicle_types.motorcycle ≤ 8) ∧
    (∃ (hour : ℕ) (city : City) (d : TrafficDraws), trafficAdmissible hour city d ∧
      85 < (generate_traffic_data_city hour city d).vehicle_types.car) := by
  constructor
  · intro hour city d h
    obtain ⟨-, -, -, -, -, -, -, -, -, -, ha⟩ := h
    simpa [generate_traffic_data_city] using
      allocate_noncar_bounds (vcOf city d) d.alloc ha
  · exact ⟨7, newYork, ⟨200, 15, 20, 0, 0, true, ⟨60, 10, 5, 2, 0, 0, 0, 0⟩⟩,
      by decide, by decide⟩

/-- C10 witness: the non-car maxima at a concrete admissible input. -/
theorem C10_class_maxima_witness :
    (generate_traffic_data_city 0 newYork
      ⟨50, 40, 0, 0, 0, true, ⟨60, 10, 5, 2, 10, 5, 3, 2⟩⟩).vehicle_types.truck ≤ 25 :=
  (C10_class_maxima.1 0 newYork
    ⟨50, 40, 0, 0, 0, true, ⟨60, 10, 5, 2, 10, 5, 3, 2⟩⟩ (by decide)).1

end CityTraffic
